import Mathlib

/-!
Verification of the parsing cascades of `pubmed_mapper.py` (pubmed-mapper).

This file gives a shallow embedding of the two recognizer cascades of the
library: the publication-date cascade (`PUBDATE_PARSERS` consumed by
`parse_pubdate`) and the affiliation cascade (`AFFILIATION_PARSERS` consumed
by `Affiliation.parse_element`).  Python regular expressions (all of which
are anchored on both sides and consist of literals and greedy character-class
repetitions) are embedded as item lists interpreted by a backtracking
matcher `mtch` with Python's greedy longest-first semantics.  Python
exceptions (`ValueError` from `datetime.date` and `int`, `KeyError` from the
`MONTHS`/`SEASONS` dict lookups, and the library's own `PubmedMapperError`)
are embedded as an `Except` error type.
-/

set_option maxRecDepth 8000

/-- Python `str.isdigit` restricted to the ASCII fragment: the string is
nonempty and every character is a decimal digit. -/
def pyIsdigit (s : String) : Bool :=
  !s.data.isEmpty && s.data.all Char.isDigit

/-- Python `str.capitalize` on ASCII text: first character uppercased,
all remaining characters lowercased. -/
def pyCapitalize (s : String) : String :=
  match s.data with
  | [] => ""
  | c :: rest => String.mk (c.toUpper :: rest.map Char.toLower)

/-- Interpret a list of decimal digit characters as a natural number. -/
def digitsToNat (l : List Char) : Nat :=
  l.foldl (fun a c => a * 10 + (c.toNat - 48)) 0

/-- Python whitespace characters recognized by `int(text)`/`str.strip`. -/
def isPySpace (c : Char) : Bool :=
  c == ' ' || c == '\t' || c == '\n' || c == '\r' || c == '\x0b' || c == '\x0c'

/-- Leading and trailing whitespace removed, as `str.strip()`. -/
def pyStrip (s : String) : List Char :=
  ((s.data.dropWhile isPySpace).reverse.dropWhile isPySpace).reverse

/-- Python `int(text)` on the fragment the library exercises: optional
surrounding whitespace, an optional sign, then a nonempty digit string.
Anything else raises `ValueError`. -/
def pyIntCore (s : String) : Option Int :=
  match pyStrip s with
  | '-' :: ds => if !ds.isEmpty && ds.all Char.isDigit then some (-(digitsToNat ds : Int)) else none
  | '+' :: ds => if !ds.isEmpty && ds.all Char.isDigit then some ((digitsToNat ds : Int)) else none
  | ds => if !ds.isEmpty && ds.all Char.isDigit then some ((digitsToNat ds : Int)) else none

/-- Python truthiness for an optional text node: `None` and the empty
string are falsy, any other string is kept.  This models the
`if not text: ...` guards of the pubdate recognizers. -/
def tval : Option String → Option String
  | some s => if s = "" then none else some s
  | none => none

/-- `<PubDate>` element as seen by the pubdate recognizers: the first text
node of each of the child tags `Year`, `Month`, `Day`, `Season`,
`MedlineDate` (absent when the tag is absent). -/
structure PubDateElement where
  year : Option String
  month : Option String
  day : Option String
  season : Option String
  medlineDate : Option String
deriving DecidableEq, Repr

/-- `datetime.date` value: the result type of every pubdate recognizer. -/
structure PyDate where
  year : Nat
  month : Nat
  day : Nat
deriving DecidableEq, Repr

/-- Python exceptions that can escape the pubdate cascade:
`PubmedMapperError` (raised by `parse_pubdate` itself, carrying the
offending `<PubDate>` element), `ValueError` (from `datetime.date` and
`int`), and `KeyError` (from the `MONTHS`/`SEASONS` dict lookups). -/
inductive PubdateErr where
  | pubmedMapperError (raw : PubDateElement)
  | valueError (msg : String)
  | keyError (key : String)
deriving DecidableEq, Repr

deriving instance DecidableEq for Except

/-- Gregorian leap-year rule used by `datetime.date`. -/
def isLeap (y : Int) : Bool :=
  y % 4 == 0 && (y % 100 != 0 || y % 400 == 0)

/-- Number of days of month `m` of year `y` (as in `datetime`). -/
def daysInMonth (y m : Int) : Int :=
  if m == 2 then (if isLeap y then 29 else 28)
  else if m == 4 || m == 6 || m == 9 || m == 11 then 30
  else 31

/-- `datetime.date(year, month, day)`: validates the ranges exactly as
CPython does (year 1..9999, month 1..12, day 1..days-in-month) and raises
`ValueError` otherwise. -/
def date_new (y m d : Int) : Except PubdateErr PyDate :=
  if y < 1 || y > 9999 then .error (.valueError "year is out of range")
  else if m < 1 || m > 12 then .error (.valueError "month must be in 1..12")
  else if d < 1 || d > daysInMonth y m then .error (.valueError "day is out of range for month")
  else .ok ⟨y.toNat, m.toNat, d.toNat⟩

/-- `int(text)` with the `ValueError` it raises on a non-numeric literal. -/
def pyInt (s : String) : Except PubdateErr Int :=
  match pyIntCore s with
  | some n => .ok n
  | none => .error (.valueError ("invalid literal for int with base 10: " ++ s))

/-- The module-level `MONTHS` dict: 3/4-letter English month abbreviations
(with the `Sept` alias) to month numbers. -/
def MONTHS : String → Option Int
  | "Jan" => some 1
  | "Feb" => some 2
  | "Mar" => some 3
  | "Apr" => some 4
  | "May" => some 5
  | "Jun" => some 6
  | "Jul" => some 7
  | "Aug" => some 8
  | "Sep" => some 9
  | "Sept" => some 9
  | "Oct" => some 10
  | "Nov" => some 11
  | "Dec" => some 12
  | _ => none

/-- The module-level `SEASONS` dict. -/
def SEASONS : String → Option Int
  | "Spring" => some 4
  | "Summer" => some 7
  | "Fall" => some 10
  | "Autumn" => some 10
  | "Winter" => some 1
  | _ => none

/-- `MONTHS[key]`: Python dict subscription raises `KeyError` when the key
is absent. -/
def monthsGet (key : String) : Except PubdateErr Int :=
  match MONTHS key with
  | some m => .ok m
  | none => .error (.keyError key)

/-- `SEASONS[key]`: dict subscription with `KeyError` on a missing key. -/
def seasonsGet (key : String) : Except PubdateErr Int :=
  match SEASONS key with
  | some m => .ok m
  | none => .error (.keyError key)

/-- Shared month-text resolution of the structured recognizers:
`int(month_text)` when `month_text.isdigit()`, otherwise
`MONTHS[month_text.capitalize()]`. -/
def monthOf (month_text : String) : Except PubdateErr Int :=
  if pyIsdigit month_text then pyInt month_text
  else monthsGet (pyCapitalize month_text)

/-! ### A backtracking matcher for the (anchored, greedy) regexes of the source -/

/-- Character classes occurring in the source regexes: `.` (any character
except newline), `\d`, `\D`, `[a-zA-Z]`, `[\-\d]`. -/
inductive CharCls where
  | anyc
  | digit
  | nondigit
  | alpha
  | digitHyphen
deriving DecidableEq, Repr

/-- Membership of a character in a character class. -/
def clsMem : CharCls → Char → Bool
  | .anyc, c => c != '\n'
  | .digit, c => c.isDigit
  | .nondigit, c => !c.isDigit
  | .alpha, c => c.isAlpha
  | .digitHyphen, c => c == '-' || c.isDigit

/-- One item of a compiled regex: a literal, a greedy repetition of a
character class with a repetition range (`hi = none` meaning unbounded,
as in `+`), or the opening/closing marker of a named capture group. -/
inductive RItem where
  | lit (s : List Char)
  | cls (c : CharCls) (lo : Nat) (hi : Option Nat)
  | capStart (n : Nat)
  | capEnd (n : Nat)
deriving DecidableEq, Repr

/-- Length of the maximal prefix of `l` inside class `cc`. -/
def runLen (cc : CharCls) : List Char → Nat
  | [] => 0
  | c :: rest => if clsMem cc c then runLen cc rest + 1 else 0

/-- The descending list `[hi, hi-1, ..., lo]` (empty when `hi < lo`):
the candidate repetition counts of a greedy quantifier, longest first. -/
def descRange (hi lo : Nat) : List Nat :=
  if hi < lo then [] else (List.range (hi - lo + 1)).map (fun i => hi - i)

/-- Backtracking matcher.  `opens` maps an open capture group to the input
suffix at its start; `caps` accumulates closed captures.  The final
acceptance mirrors a trailing `$` with no `re.MULTILINE`: the remaining
input must be empty or a single newline. -/
def mtch : List RItem → List Char → List (Nat × List Char) → List (Nat × List Char) →
    Option (List (Nat × List Char))
  | [], input, _, caps =>
      if input = [] || input = ['\n'] then some caps else none
  | .lit s :: rest, input, opens, caps =>
      if s.isPrefixOf input then mtch rest (input.drop s.length) opens caps else none
  | .capStart n :: rest, input, opens, caps =>
      mtch rest input ((n, input) :: opens) caps
  | .capEnd n :: rest, input, opens, caps =>
      match opens.lookup n with
      | some st => mtch rest input opens ((n, st.take (st.length - input.length)) :: caps)
      | none => none
  | .cls cc lo hi :: rest, input, opens, caps =>
      let r := runLen cc input
      let h := match hi with | some b => min b r | none => r
      (descRange h lo).findSome? fun k => mtch rest (input.drop k) opens caps

/-- Run a compiled regex anchored at the start of `s` (every source pattern
begins with `^`), returning the captures of the leftmost-greedy match. -/
def reMatch (items : List RItem) (s : String) : Option (List (Nat × List Char)) :=
  mtch items s.data [] []

/-- Captured group `n` as a `String`. -/
def capS (caps : List (Nat × List Char)) (n : Nat) : Option String :=
  (caps.lookup n).map String.mk

/-- Literal regex item from a string. -/
def litStr (s : String) : RItem := .lit s.data

/-! ### The pubdate recognizers -/

/-- `PubdateDefaults.default_year` (defined in the source, used by no recognizer). -/
def PubdateDefaults.default_year : Int := 1

/-- `PubdateDefaults.default_month`. -/
def PubdateDefaults.default_month : Int := 1

/-- `PubdateDefaults.default_day`. -/
def PubdateDefaults.default_day : Int := 1

/-- `PubdateParserMedlineDateYearOnly.pattern`: `^(?P<year>\d{4}$)`. -/
def patMedlineDateYearOnly : List RItem :=
  .capStart 0 :: .cls .digit 4 (some 4) :: [.capEnd 0]

/-- `PubdateParserMedlineDateMonthRange.pattern`:
`^(?P<year>\d{4}) (?P<month_text>[a-zA-Z]{3})-[a-zA-Z]{3}$`. -/
def patMedlineDateMonthRange : List RItem :=
  .capStart 0 :: .cls .digit 4 (some 4) ::
  [.capEnd 0, litStr " ",
   .capStart 1, .cls .alpha 3 (some 3), .capEnd 1, litStr "-", .cls .alpha 3 (some 3)]

/-- `PubdateParserMedlineDateDayRange.pattern`:
`^(?P<year>\d{4}) (?P<month_text>[a-zA-Z]{3}) (?P<day>\d{1,2})-\d{1,2}$`. -/
def patMedlineDateDayRange : List RItem :=
  .capStart 0 :: .cls .digit 4 (some 4) ::
  [.capEnd 0, litStr " ",
   .capStart 1, .cls .alpha 3 (some 3), .capEnd 1, litStr " ",
   .capStart 2, .cls .digit 1 (some 2), .capEnd 2, litStr "-", .cls .digit 1 (some 2)]

/-- `PubdateParserMedlineDateMonthRangeCrossYear.pattern`:
`^(?P<year>\d{4}) (?P<month_text>[a-zA-Z]{3})-\d{4} [a-zA-Z]{3}$`. -/
def patMedlineDateMonthRangeCrossYear : List RItem :=
  .capStart 0 :: .cls .digit 4 (some 4) ::
  [.capEnd 0, litStr " ",
   .capStart 1, .cls .alpha 3 (some 3), .capEnd 1, litStr "-",
   .cls .digit 4 (some 4), litStr " ", .cls .alpha 3 (some 3)]

/-- `PubdateParserMedlineDateRangeYear.pattern`: `^(?P<year>\d{4})-\d{4}$`. -/
def patMedlineDateRangeYear : List RItem :=
  .capStart 0 :: .cls .digit 4 (some 4) ::
  [.capEnd 0, litStr "-", .cls .digit 4 (some 4)]

/-- `PubdateParserMedlineDateMonthDayRange.pattern`:
`^(?P<year>\d{4}) (?P<month_text>[a-zA-Z]{3}) (?P<day>\d{1,2})-[a-zA-Z]{3} \d{1,2}$`. -/
def patMedlineDateMonthDayRange : List RItem :=
  .capStart 0 :: .cls .digit 4 (some 4) ::
  [.capEnd 0, litStr " ",
   .capStart 1, .cls .alpha 3 (some 3), .capEnd 1, litStr " ",
   .capStart 2, .cls .digit 1 (some 2), .capEnd 2, litStr "-",
   .cls .alpha 3 (some 3), litStr " ", .cls .digit 1 (some 2)]

/-- `PubdateParserMedlineDateYearRangeWithSeason.pattern`:
`^(?P<year>\d{4})-\d{4} (?P<season_text>[a-zA-Z]+)$`. -/
def patMedlineDateYearRangeWithSeason : List RItem :=
  .capStart 0 :: .cls .digit 4 (some 4) ::
  [.capEnd 0, litStr "-", .cls .digit 4 (some 4), litStr " ",
   .capStart 1, .cls .alpha 1 none, .capEnd 1]

/-- `PubdateParserMedlineDateYearSeasonRange.pattern`:
`^(?P<year>\d{4})-\d{4} (?P<season_text>[a-zA-Z]+)-[a-zA-Z]+$`. -/
def patMedlineDateYearSeasonRange : List RItem :=
  .capStart 0 :: .cls .digit 4 (some 4) ::
  [.capEnd 0, litStr "-", .cls .digit 4 (some 4), litStr " ",
   .capStart 1, .cls .alpha 1 none, .capEnd 1, litStr "-", .cls .alpha 1 none]

/-- The twelve pubdate recognizer classes, one constructor per source class
`PubdateParser*`. -/
inductive PubdateParser where
  | yearMonthDay
  | yearMonth
  | yearSeason
  | yearOnly
  | medlineDateYearOnly
  | medlineDateMonthRange
  | medlineDateDayRange
  | medlineDateMonthRangeCrossYear
  | medlineDateRangeYear
  | medlineDateMonthDayRange
  | medlineDateYearRangeWithSeason
  | medlineDateYearSeasonRange
deriving DecidableEq, Repr

/-- `__call__` of each pubdate recognizer.  `.ok none` is a decline
(Python `return None`), `.ok (some d)` a successful parse, `.error` an
escaping Python exception.  Each branch mirrors the body of the
corresponding source class, including the evaluation order of the
`int(...)`, dict-lookup and `date(...)` operations. -/
def PubdateParser.run : PubdateParser → PubDateElement → Except PubdateErr (Option PyDate)
  | .yearMonthDay, e =>
    match tval e.year, tval e.month, tval e.day with
    | some year_text, some month_text, some day_text => do
      let month ← monthOf month_text
      let year ← pyInt year_text
      let day ← pyInt day_text
      let d ← date_new year month day
      return some d
    | _, _, _ => .ok none
  | .yearMonth, e =>
    match tval e.year, tval e.month with
    | some year_text, some month_text => do
      let month ← monthOf month_text
      let year ← pyInt year_text
      let d ← date_new year month PubdateDefaults.default_day
      return some d
    | _, _ => .ok none
  | .yearSeason, e =>
    match tval e.year, tval e.season with
    | some year_text, some season_text => do
      let year ← pyInt year_text
      let month ← seasonsGet season_text
      let d ← date_new year month PubdateDefaults.default_day
      return some d
    | _, _ => .ok none
  | .yearOnly, e =>
    match tval e.year with
    | some year_text => do
      let year ← pyInt year_text
      let d ← date_new year PubdateDefaults.default_month PubdateDefaults.default_day
      return some d
    | none => .ok none
  | .medlineDateYearOnly, e =>
    match tval e.medlineDate with
    | none => .ok none
    | some s =>
      match reMatch patMedlineDateYearOnly s with
      | none => .ok none
      | some caps => do
        let year ← pyInt ((capS caps 0).getD "")
        let d ← date_new year PubdateDefaults.default_month PubdateDefaults.default_day
        return some d
  | .medlineDateMonthRange, e =>
    match tval e.medlineDate with
    | none => .ok none
    | some s =>
      match reMatch patMedlineDateMonthRange s with
      | none => .ok none
      | some caps => do
        let year ← pyInt ((capS caps 0).getD "")
        let month ← monthsGet (pyCapitalize ((capS caps 1).getD ""))
        let d ← date_new year month PubdateDefaults.default_day
        return some d
  | .medlineDateDayRange, e =>
    match tval e.medlineDate with
    | none => .ok none
    | some s =>
      match reMatch patMedlineDateDayRange s with
      | none => .ok none
      | some caps => do
        let year ← pyInt ((capS caps 0).getD "")
        let month ← monthsGet (pyCapitalize ((capS caps 1).getD ""))
        let day ← pyInt ((capS caps 2).getD "")
        let d ← date_new year month day
        return some d
  | .medlineDateMonthRangeCrossYear, e =>
    match tval e.medlineDate with
    | none => .ok none
    | some s =>
      match reMatch patMedlineDateMonthRangeCrossYear s with
      | none => .ok none
      | some caps => do
        let year ← pyInt ((capS caps 0).getD "")
        let month ← monthsGet (pyCapitalize ((capS caps 1).getD ""))
        let d ← date_new year month PubdateDefaults.default_day
        return some d
  | .medlineDateRangeYear, e =>
    match tval e.medlineDate with
    | none => .ok none
    | some s =>
      match reMatch patMedlineDateRangeYear s with
      | none => .ok none
      | some caps => do
        let year ← pyInt ((capS caps 0).getD "")
        let d ← date_new year PubdateDefaults.default_month PubdateDefaults.default_day
        return some d
  | .medlineDateMonthDayRange, e =>
    match tval e.medlineDate with
    | none => .ok none
    | some s =>
      match reMatch patMedlineDateMonthDayRange s with
      | none => .ok none
      | some caps => do
        let year ← pyInt ((capS caps 0).getD "")
        let month ← monthsGet (pyCapitalize ((capS caps 1).getD ""))
        let day ← pyInt ((capS caps 2).getD "")
        let d ← date_new year month day
        return some d
  | .medlineDateYearRangeWithSeason, e =>
    match tval e.medlineDate with
    | none => .ok none
    | some s =>
      match reMatch patMedlineDateYearRangeWithSeason s with
      | none => .ok none
      | some caps => do
        let year ← pyInt ((capS caps 0).getD "")
        let month ← seasonsGet (pyCapitalize ((capS caps 1).getD ""))
        let d ← date_new year month PubdateDefaults.default_day
        return some d
  | .medlineDateYearSeasonRange, e =>
    match tval e.medlineDate with
    | none => .ok none
    | some s =>
      match reMatch patMedlineDateYearSeasonRange s with
      | none => .ok none
      | some caps => do
        let year ← pyInt ((capS caps 0).getD "")
        let month ← seasonsGet (pyCapitalize ((capS caps 1).getD ""))
        let d ← date_new year month PubdateDefaults.default_day
        return some d

/-- The module-level `PUBDATE_PARSERS` list, in source order. -/
def PUBDATE_PARSERS : List PubdateParser :=
  [.yearMonthDay, .yearMonth, .yearSeason, .yearOnly,
   .medlineDateYearOnly, .medlineDateMonthRange, .medlineDateDayRange,
   .medlineDateMonthRangeCrossYear, .medlineDateRangeYear,
   .medlineDateMonthDayRange, .medlineDateYearRangeWithSeason,
   .medlineDateYearSeasonRange]

/-- The recognizer loop of `ArticleElementParserMixin.parse_pubdate`: try
each recognizer in order, stop at the first non-`None` result (a `date`
object is always truthy), propagate any exception, and raise
`PubmedMapperError` carrying the offending element when every recognizer
declines. -/
def pubdateGo : List PubdateParser → PubDateElement → Except PubdateErr PyDate
  | [], e => .error (.pubmedMapperError e)
  | p :: ps, e =>
    match p.run e with
    | .error err => .error err
    | .ok (some d) => .ok d
    | .ok none => pubdateGo ps e

/-- `ArticleElementParserMixin.parse_pubdate` restricted to the cascade
itself (the xpath locating the `<PubDate>` element is out of scope). -/
def parse_pubdate (e : PubDateElement) : Except PubdateErr PyDate :=
  pubdateGo PUBDATE_PARSERS e

/-! ### The affiliation recognizers -/

/-- The `Affiliation` record (constructor arguments of the source class;
every recognizer fills a fixed subset and passes `None` elsewhere). -/
structure Affiliation where
  college : Option String
  university : Option String
  address : Option String
  city : Option String
  city_postcode : Option String
  province : Option String
  country : Option String
deriving DecidableEq, Repr

/-- `AffiliationParserCityPostcodeCity.pattern`:
`^(?P<college>.+), (?P<university>.+), (?P<city_postcode>[\-\d]+) (?P<city>.+), (?P<country>.+)\.$`. -/
def patCityPostcodeCity : List RItem :=
  [.capStart 0, .cls .anyc 1 none, .capEnd 0, litStr ", ",
   .capStart 1, .cls .anyc 1 none, .capEnd 1, litStr ", ",
   .capStart 2, .cls .digitHyphen 1 none, .capEnd 2, litStr " ",
   .capStart 3, .cls .anyc 1 none, .capEnd 3, litStr ", ",
   .capStart 4, .cls .anyc 1 none, .capEnd 4, litStr "."]

/-- `AffiliationParserCityCityPostcode.pattern`:
`^(?P<college>.+), (?P<university>.+), (?P<city>.+) (?P<city_postcode>[\-\d]+), (?P<country>.+)\.$`. -/
def patCityCityPostcode : List RItem :=
  [.capStart 0, .cls .anyc 1 none, .capEnd 0, litStr ", ",
   .capStart 1, .cls .anyc 1 none, .capEnd 1, litStr ", ",
   .capStart 2, .cls .anyc 1 none, .capEnd 2, litStr " ",
   .capStart 3, .cls .digitHyphen 1 none, .capEnd 3, litStr ", ",
   .capStart 4, .cls .anyc 1 none, .capEnd 4, litStr "."]

/-- `AffiliationParserCityCommaCityPostcode.pattern`:
`^(?P<college>.+), (?P<university>.+), (?P<city>.+), (?P<city_postcode>.+ [\-\d]+), (?P<country>.+)\.$`. -/
def patCityCommaCityPostcode : List RItem :=
  [.capStart 0, .cls .anyc 1 none, .capEnd 0, litStr ", ",
   .capStart 1, .cls .anyc 1 none, .capEnd 1, litStr ", ",
   .capStart 2, .cls .anyc 1 none, .capEnd 2, litStr ", ",
   .capStart 3, .cls .anyc 1 none, litStr " ", .cls .digitHyphen 1 none, .capEnd 3, litStr ", ",
   .capStart 4, .cls .anyc 1 none, .capEnd 4, litStr "."]

/-- `AffiliationParserCityProvince.pattern`:
`^(?P<college>.+), (?P<university>.+), (?P<city>.+), (?P<province>\D+), (?P<country>.+)\.$`. -/
def patCityProvince : List RItem :=
  [.capStart 0, .cls .anyc 1 none, .capEnd 0, litStr ", ",
   .capStart 1, .cls .anyc 1 none, .capEnd 1, litStr ", ",
   .capStart 2, .cls .anyc 1 none, .capEnd 2, litStr ", ",
   .capStart 3, .cls .nondigit 1 none, .capEnd 3, litStr ", ",
   .capStart 4, .cls .anyc 1 none, .capEnd 4, litStr "."]

/-- `AffiliationParserStreetNumberCommaStreet.pattern`:
`^(?P<college>.+), (?P<university>.+), (?P<street_number>.+), (?P<street>.+), (?P<city>.+) (?P<city_postcode>[\-\d]+), (?P<country>.+); .+@.+\.$`. -/
def patStreetNumberCommaStreet : List RItem :=
  [.capStart 0, .cls .anyc 1 none, .capEnd 0, litStr ", ",
   .capStart 1, .cls .anyc 1 none, .capEnd 1, litStr ", ",
   .capStart 2, .cls .anyc 1 none, .capEnd 2, litStr ", ",
   .capStart 3, .cls .anyc 1 none, .capEnd 3, litStr ", ",
   .capStart 4, .cls .anyc 1 none, .capEnd 4, litStr " ",
   .capStart 5, .cls .digitHyphen 1 none, .capEnd 5, litStr ", ",
   .capStart 6, .cls .anyc 1 none, .capEnd 6, litStr "; ",
   .cls .anyc 1 none, litStr "@", .cls .anyc 1 none, litStr "."]

/-- `AffiliationParserStreet.pattern`:
`^(?P<institute>.+), (?P<college>.+), (?P<university>.+), (?P<street>.+), (?P<city_postcode>[\-\d]+) (?P<city>.+), (?P<country>.+)\.$`. -/
def patStreet : List RItem :=
  [.capStart 0, .cls .anyc 1 none, .capEnd 0, litStr ", ",
   .capStart 1, .cls .anyc 1 none, .capEnd 1, litStr ", ",
   .capStart 2, .cls .anyc 1 none, .capEnd 2, litStr ", ",
   .capStart 3, .cls .anyc 1 none, .capEnd 3, litStr ", ",
   .capStart 4, .cls .digitHyphen 1 none, .capEnd 4, litStr " ",
   .capStart 5, .cls .anyc 1 none, .capEnd 5, litStr ", ",
   .capStart 6, .cls .anyc 1 none, .capEnd 6, litStr "."]

/-- The six affiliation recognizer classes of the source, one constructor
per `AffiliationParser*` class (`cityProvince` is defined in the source but
not registered in `AFFILIATION_PARSERS`). -/
inductive AffiliationParserKind where
  | street
  | streetNumberCommaStreet
  | cityCommaCityPostcode
  | cityPostcodeCity
  | cityCityPostcode
  | cityProvince
deriving DecidableEq, Repr

/-- `__call__` of each affiliation recognizer: match the anchored pattern
against the whole text and build the `Affiliation` record from the named
groups exactly as the source constructor call does. -/
def AffiliationParserKind.run : AffiliationParserKind → String → Option Affiliation
  | .street, text =>
    match reMatch patStreet text with
    | none => none
    | some caps => some
      { college := capS caps 1
        university := capS caps 2
        address := capS caps 3
        city := capS caps 5
        city_postcode := capS caps 4
        province := none
        country := capS caps 6 }
  | .streetNumberCommaStreet, text =>
    match reMatch patStreetNumberCommaStreet text with
    | none => none
    | some caps => some
      { college := capS caps 0
        university := capS caps 1
        address :=
          match capS caps 2, capS caps 3 with
          | some streetNumberText, some streetText => some (streetNumberText ++ ", " ++ streetText)
          | _, _ => none
        city := capS caps 4
        city_postcode := capS caps 5
        province := none
        country := capS caps 6 }
  | .cityCommaCityPostcode, text =>
    match reMatch patCityCommaCityPostcode text with
    | none => none
    | some caps => some
      { college := capS caps 0
        university := capS caps 1
        address := none
        city := capS caps 2
        city_postcode := capS caps 3
        province := none
        country := capS caps 4 }
  | .cityPostcodeCity, text =>
    match reMatch patCityPostcodeCity text with
    | none => none
    | some caps => some
      { college := capS caps 0
        university := capS caps 1
        address := none
        city := capS caps 3
        city_postcode := capS caps 2
        province := none
        country := capS caps 4 }
  | .cityCityPostcode, text =>
    match reMatch patCityCityPostcode text with
    | none => none
    | some caps => some
      { college := capS caps 0
        university := capS caps 1
        address := none
        city := capS caps 2
        city_postcode := capS caps 3
        province := none
        country := capS caps 4 }
  | .cityProvince, text =>
    match reMatch patCityProvince text with
    | none => none
    | some caps => some
      { college := capS caps 0
        university := capS caps 1
        address := none
        city := capS caps 2
        city_postcode := none
        province := capS caps 3
        country := capS caps 4 }

/-- The module-level `AFFILIATION_PARSERS` list, in source order.  Note
that `AffiliationParserCityProvince` is not in it. -/
def AFFILIATION_PARSERS : List AffiliationParserKind :=
  [.street, .streetNumberCommaStreet, .cityCommaCityPostcode,
   .cityPostcodeCity, .cityCityPostcode]

/-- The recognizer loop inside `Affiliation.parse_element`: first
non-`None` result wins. -/
def affFirst : List AffiliationParserKind → String → Option Affiliation
  | [], _ => none
  | p :: ps, text =>
    match p.run text with
    | some a => some a
    | none => affFirst ps text

/-- `Affiliation.parse_element` restricted to the cascade (the xpath
extracting the affiliation text is out of scope): returns the first match,
or `None` together with the `logger.warning` message naming the unmatched
text. -/
def Affiliation.parse_element (text : String) : Option Affiliation × List String :=
  match affFirst AFFILIATION_PARSERS text with
  | some a => (some a, [])
  | none => (none, ["cannot parse affiliation text: " ++ text])

/-! ### Cascade lemmas -/

/-- Skipping a prefix of declining recognizers leaves the cascade result
unchanged. -/
theorem pubdateGo_append_none (e : PubDateElement) :
    ∀ ps1 ps2 : List PubdateParser, (∀ q ∈ ps1, PubdateParser.run q e = .ok none) →
      pubdateGo (ps1 ++ ps2) e = pubdateGo ps2 e := by
  intro ps1
  induction ps1 with
  | nil => intro ps2 _; rfl
  | cons p ps ih =>
    intro ps2 h
    have hp : PubdateParser.run p e = .ok none := h p (List.mem_cons_self p ps)
    simp only [List.cons_append, pubdateGo, hp]
    exact ih ps2 (fun q hq => h q (List.mem_cons_of_mem p hq))

/-- An empty repetition range. -/
theorem descRange_nil (hi lo : Nat) (h : hi < lo) : descRange hi lo = [] := by
  simp [descRange, h]

/-- A pattern opening with a captured `\d{4}` cannot match an input whose
leading digit run is shorter than four characters. -/
theorem mtch_digit4_head (n : Nat) (rest : List RItem) (input : List Char)
    (opens caps : List (Nat × List Char)) (h : runLen .digit input < 4) :
    mtch (.capStart n :: .cls .digit 4 (some 4) :: rest) input opens caps = none := by
  have hmin : min 4 (runLen CharCls.digit input) = runLen CharCls.digit input :=
    Nat.min_eq_right (Nat.le_of_lt h)
  simp only [mtch, hmin, descRange_nil _ _ h, List.findSome?_nil]

/-- The structured recognizers all decline when the `Year` text is falsy. -/
theorem run_structured_decline (p : PubdateParser)
    (hp : p ∈ [PubdateParser.yearMonthDay, .yearMonth, .yearSeason, .yearOnly])
    (e : PubDateElement) (hy : tval e.year = none) :
    PubdateParser.run p e = .ok none := by
  fin_cases hp
  · cases hm : tval e.month <;> cases hd : tval e.day <;>
      simp [PubdateParser.run, hy, hm, hd]
  · cases hm : tval e.month <;> simp [PubdateParser.run, hy, hm]
  · cases hs : tval e.season <;> simp [PubdateParser.run, hy, hs]
  · simp [PubdateParser.run, hy]

/-- `true` when the `MedlineDate` text is falsy or does not begin with a
four-digit year (in which case no Medline free-text pattern can match). -/
def medNoYearB (e : PubDateElement) : Bool :=
  match tval e.medlineDate with
  | none => true
  | some s => decide (runLen .digit s.data < 4)

/-- The Medline free-text recognizers all decline when `medNoYearB` holds. -/
theorem run_medline_decline (p : PubdateParser)
    (hp : p ∈ [PubdateParser.medlineDateYearOnly, .medlineDateMonthRange,
      .medlineDateDayRange, .medlineDateMonthRangeCrossYear, .medlineDateRangeYear,
      .medlineDateMonthDayRange, .medlineDateYearRangeWithSeason,
      .medlineDateYearSeasonRange])
    (e : PubDateElement) (hm : medNoYearB e = true) :
    PubdateParser.run p e = .ok none := by
  cases hmd : tval e.medlineDate with
  | none => fin_cases hp <;> simp [PubdateParser.run, hmd]
  | some s =>
    have hlt : runLen .digit s.data < 4 := by
      simp [medNoYearB, hmd] at hm
      exact hm
    have hfail : ∀ rest : List RItem,
        mtch (.capStart 0 :: .cls .digit 4 (some 4) :: rest) s.data [] [] = none :=
      fun rest => mtch_digit4_head 0 rest s.data [] [] hlt
    fin_cases hp <;>
      simp [PubdateParser.run, hmd, reMatch, patMedlineDateYearOnly,
        patMedlineDateMonthRange, patMedlineDateDayRange,
        patMedlineDateMonthRangeCrossYear, patMedlineDateRangeYear,
        patMedlineDateMonthDayRange, patMedlineDateYearRangeWithSeason,
        patMedlineDateYearSeasonRange, hfail]

/-! ### The claims -/

/-- C1: For every date-bearing input element, the date cascade invokes the
fixed ordered recognizer list (Year+Month+Day, Year+Month, Year+Season,
Year only, then the Medline free-text recognizers in their listed order)
and returns the result of the first recognizer that returns a non-empty
result; if every recognizer declines, it fails with the
unrecognized-date-format error (`PubmedMapperError`) carrying the raw
offending element. -/
theorem c1_pubdate_cascade_first_match :
    PUBDATE_PARSERS = [.yearMonthDay, .yearMonth, .yearSeason, .yearOnly,
      .medlineDateYearOnly, .medlineDateMonthRange, .medlineDateDayRange,
      .medlineDateMonthRangeCrossYear, .medlineDateRangeYear,
      .medlineDateMonthDayRange, .medlineDateYearRangeWithSeason,
      .medlineDateYearSeasonRange]
  ∧ (∀ (e : PubDateElement) (ps1 : List PubdateParser) (p : PubdateParser)
      (ps2 : List PubdateParser) (d : PyDate),
      PUBDATE_PARSERS = ps1 ++ p :: ps2 →
      (∀ q ∈ ps1, PubdateParser.run q e = .ok none) →
      PubdateParser.run p e = .ok (some d) →
      parse_pubdate e = .ok d)
  ∧ (∀ e : PubDateElement,
      (∀ q ∈ PUBDATE_PARSERS, PubdateParser.run q e = .ok none) →
      parse_pubdate e = .error (.pubmedMapperError e)) := by
  refine ⟨rfl, ?_, ?_⟩
  · intro e ps1 p ps2 d hsplit h1 hp
    rw [parse_pubdate, hsplit, pubdateGo_append_none e ps1 _ h1]
    simp [pubdateGo, hp]
  · intro e h
    have hall := pubdateGo_append_none e PUBDATE_PARSERS [] h
    rw [List.append_nil] at hall
    rw [parse_pubdate, hall]
    rfl

/-- C1 witness: the ninth recognizer (Medline year range) is the first to
accept `"1975-1976"`; an element with no recognizable content makes every
recognizer decline and raises the carrying error. -/
theorem c1_pubdate_cascade_first_match_witness :
    parse_pubdate ⟨none, none, none, none, some "1975-1976"⟩ = .ok ⟨1975, 1, 1⟩
  ∧ parse_pubdate ⟨none, none, none, none, some "no date here"⟩
      = .error (.pubmedMapperError ⟨none, none, none, none, some "no date here"⟩) := by
  constructor
  · exact c1_pubdate_cascade_first_match.2.1
      ⟨none, none, none, none, some "1975-1976"⟩
      [.yearMonthDay, .yearMonth, .yearSeason, .yearOnly, .medlineDateYearOnly,
       .medlineDateMonthRange, .medlineDateDayRange, .medlineDateMonthRangeCrossYear]
      .medlineDateRangeYear
      [.medlineDateMonthDayRange, .medlineDateYearRangeWithSeason,
       .medlineDateYearSeasonRange]
      ⟨1975, 1, 1⟩ rfl (by decide) (by decide)
  · exact c1_pubdate_cascade_first_match.2.2
      ⟨none, none, none, none, some "no date here"⟩ (by decide)

/-- C2 counterexample: on `{Year:"2014", Month:"6", Day:"32"}` the cascade
raises the `ValueError` of `datetime.date`, not the library's
unrecognized-date-format error (`PubmedMapperError` carrying the raw
element), contradicting the claim that the failure propagates as
`UnrecognizedDateFormat`. -/
theorem c2_invalid_day_counterexample :
    parse_pubdate ⟨some "2014", some "6", some "32", none, none⟩
      = .error (.valueError "day is out of range for month")
  ∧ parse_pubdate ⟨some "2014", some "6", some "32", none, none⟩
      ≠ .error (.pubmedMapperError ⟨some "2014", some "6", some "32", none, none⟩) := by
  constructor
  · decide
  · decide

/-- C2 (amended): for every input whose shape matches a date recognizer but
whose numeric value is not a valid calendar date, the date-construction
failure propagates out of the cascade as the underlying uncaught
`ValueError` (not wrapped as the unrecognized-date-format error) — a hard
stop, with no fallthrough to later recognizers.  The concrete conjuncts
show the stop is observable: on day=32 the Year+Month recognizer would
have succeeded, yet the cascade returns the construction error. -/
theorem c2_invalid_date_hard_stop :
    (∀ (e : PubDateElement) (ps1 : List PubdateParser) (p : PubdateParser)
      (ps2 : List PubdateParser) (err : PubdateErr),
      PUBDATE_PARSERS = ps1 ++ p :: ps2 →
      (∀ q ∈ ps1, PubdateParser.run q e = .ok none) →
      PubdateParser.run p e = .error err →
      parse_pubdate e = .error err)
  ∧ PubdateParser.run .yearMonthDay ⟨some "2014", some "6", some "32", none, none⟩
      = .error (.valueError "day is out of range for month")
  ∧ PubdateParser.run .yearMonth ⟨some "2014", some "6", some "32", none, none⟩
      = .ok (some ⟨2014, 6, 1⟩)
  ∧ parse_pubdate ⟨some "2014", some "6", some "32", none, none⟩
      = .error (.valueError "day is out of range for month") := by
  refine ⟨?_, by decide, by decide, by decide⟩
  intro e ps1 p ps2 err hsplit h1 hp
  rw [parse_pubdate, hsplit, pubdateGo_append_none e ps1 _ h1]
  simp [pubdateGo, hp]

/-- C2 witness: a shape-matching input with month=13 stops the cascade with
the month-range `ValueError` of `datetime.date`. -/
theorem c2_invalid_date_hard_stop_witness :
    parse_pubdate ⟨some "2014", some "13", some "5", none, none⟩
      = .error (.valueError "month must be in 1..12") :=
  c2_invalid_date_hard_stop.1
    ⟨some "2014", some "13", some "5", none, none⟩
    [] .yearMonthDay
    [.yearMonth, .yearSeason, .yearOnly, .medlineDateYearOnly,
     .medlineDateMonthRange, .medlineDateDayRange, .medlineDateMonthRangeCrossYear,
     .medlineDateRangeYear, .medlineDateMonthDayRange,
     .medlineDateYearRangeWithSeason, .medlineDateYearSeasonRange]
    (.valueError "month must be in 1..12") rfl (by decide) (by decide)

/-- The affiliation text of the spec's province example. -/
def hertsText : String :=
  "Pharmaceutical Research Department, Allen and Hanburys Research Ltd., Ware, Herts, U.K."

/-- C3 counterexample: the full affiliation cascade
(`Affiliation.parse_element` over `AFFILIATION_PARSERS`) does not yield a
record for the Ware/Herts text at all — it yields absence — so in
particular it does not yield province="Herts". -/
theorem c3_herts_cascade_counterexample :
    (Affiliation.parse_element hertsText).1 = none := by decide

/-- C3 (amended): the registered affiliation cascade yields absence (with
the warning naming the text) for the Ware/Herts text, because
`AffiliationParserCityProvince` is defined in the source but not registered
in `AFFILIATION_PARSERS`; that recognizer applied directly does yield
province="Herts" with postal code absent. -/
theorem c3_herts_city_province_unregistered :
    Affiliation.parse_element hertsText
      = (none, ["cannot parse affiliation text: " ++ hertsText])
  ∧ AffiliationParserKind.run .cityProvince hertsText
      = some { college := some "Pharmaceutical Research Department",
               university := some "Allen and Hanburys Research Ltd.",
               address := none,
               city := some "Ware",
               city_postcode := none,
               province := some "Herts",
               country := some "U.K" }
  ∧ AffiliationParserKind.cityProvince ∉ AFFILIATION_PARSERS := by
  refine ⟨by decide, by decide, by decide⟩

/-- C4: each documented literal date encoding maps to its exact documented
(year, month, day) through the cascade: structured
`{Year:2014, Month:"Jun", Day:15}` yields 2014-06-15; MedlineDate
`"1976 Aug 28-Sep 4"` yields 1976-08-28; MedlineDate
`"1977-1978 Fall-Winter"` yields 1977-10-01; MedlineDate `"1975-1976"`
yields 1975-01-01. -/
theorem c4_literal_date_encodings :
    parse_pubdate ⟨some "2014", some "Jun", some "15", none, none⟩ = .ok ⟨2014, 6, 15⟩
  ∧ parse_pubdate ⟨none, none, none, none, some "1976 Aug 28-Sep 4"⟩ = .ok ⟨1976, 8, 28⟩
  ∧ parse_pubdate ⟨none, none, none, none, some "1977-1978 Fall-Winter"⟩ = .ok ⟨1977, 10, 1⟩
  ∧ parse_pubdate ⟨none, none, none, none, some "1975-1976"⟩ = .ok ⟨1975, 1, 1⟩ := by
  refine ⟨by decide, by decide, by decide, by decide⟩

/-- C5: for every affiliation input string matched by no recognizer, the
affiliation cascade returns absence (`None`) rather than raising an error,
and the warning naming the unmatched text is emitted. -/
theorem c5_affiliation_soft_absence :
    ∀ text : String,
      (∀ p ∈ AFFILIATION_PARSERS, AffiliationParserKind.run p text = none) →
      Affiliation.parse_element text
        = (none, ["cannot parse affiliation text: " ++ text]) := by
  intro text h
  have h1 := h .street (by decide)
  have h2 := h .streetNumberCommaStreet (by decide)
  have h3 := h .cityCommaCityPostcode (by decide)
  have h4 := h .cityPostcodeCity (by decide)
  have h5 := h .cityCityPostcode (by decide)
  simp [Affiliation.parse_element, AFFILIATION_PARSERS, affFirst, h1, h2, h3, h4, h5]

/-- C5 witness: a single clause with no commas matches no recognizer and
resolves to absence plus the warning. -/
theorem c5_affiliation_soft_absence_witness :
    Affiliation.parse_element "PubMed"
      = (none, ["cannot parse affiliation text: PubMed"]) :=
  c5_affiliation_soft_absence "PubMed" (by decide)

/-- C6: for every date input with no structured `Year` text and no
Medline free-text year (falsy `MedlineDate`, or one not beginning with a
four-digit year), the cascade always fails with the
unrecognized-date-format error; absence of year is never compensated by a
default, whereas an unknown month defaults to 1 and an unknown day
defaults to 1 (witnessed by the year-only input resolving to 2014-01-01). -/
theorem c6_no_year_always_fails :
    (∀ e : PubDateElement, tval e.year = none → medNoYearB e = true →
      parse_pubdate e = .error (.pubmedMapperError e))
  ∧ PubdateDefaults.default_month = 1
  ∧ PubdateDefaults.default_day = 1
  ∧ parse_pubdate ⟨some "2014", none, none, none, none⟩ = .ok ⟨2014, 1, 1⟩ := by
  refine ⟨?_, rfl, rfl, by decide⟩
  intro e hy hm
  have hall : ∀ q ∈ PUBDATE_PARSERS, PubdateParser.run q e = .ok none := by
    intro q hq
    fin_cases hq
    · exact run_structured_decline .yearMonthDay (by decide) e hy
    · exact run_structured_decline .yearMonth (by decide) e hy
    · exact run_structured_decline .yearSeason (by decide) e hy
    · exact run_structured_decline .yearOnly (by decide) e hy
    · exact run_medline_decline .medlineDateYearOnly (by decide) e hm
    · exact run_medline_decline .medlineDateMonthRange (by decide) e hm
    · exact run_medline_decline .medlineDateDayRange (by decide) e hm
    · exact run_medline_decline .medlineDateMonthRangeCrossYear (by decide) e hm
    · exact run_medline_decline .medlineDateRangeYear (by decide) e hm
    · exact run_medline_decline .medlineDateMonthDayRange (by decide) e hm
    · exact run_medline_decline .medlineDateYearRangeWithSeason (by decide) e hm
    · exact run_medline_decline .medlineDateYearSeasonRange (by decide) e hm
  have hgo := pubdateGo_append_none e PUBDATE_PARSERS [] hall
  rw [List.append_nil] at hgo
  rw [parse_pubdate, hgo]
  rfl

/-- C6 witness: month, day, season and a yearless Medline text present but
no year anywhere — the cascade raises the carrying error. -/
theorem c6_no_year_always_fails_witness :
    parse_pubdate ⟨none, some "Jun", some "15", some "Autumn", some "Winter issue"⟩
      = .error (.pubmedMapperError
          ⟨none, some "Jun", some "15", some "Autumn", some "Winter issue"⟩) :=
  c6_no_year_always_fails.1
    ⟨none, some "Jun", some "15", some "Autumn", some "Winter issue"⟩
    (by decide) (by decide)

/-- C7: the Bonn affiliation text resolves through the full cascade to
exactly the documented record, with address and province absent. -/
theorem c7_bonn_affiliation :
    Affiliation.parse_element
        "Department of Pharmacy, University of Bonn, 53113 Bonn, Germany."
      = (some { college := some "Department of Pharmacy",
                university := some "University of Bonn",
                address := none,
                city := some "Bonn",
                city_postcode := some "53113",
                province := none,
                country := some "Germany" }, []) := by decide

/-- Two truthy month texts resolving to the same month give the
Year+Month+Day recognizer identical results in any year/day context. -/
theorem run_ymd_month_eq (y d m1 m2 : String)
    (h1 : tval (some m1) = some m1) (h2 : tval (some m2) = some m2)
    (h : monthOf m1 = monthOf m2) :
    PubdateParser.run .yearMonthDay ⟨some y, some m1, some d, none, none⟩
      = PubdateParser.run .yearMonthDay ⟨some y, some m2, some d, none, none⟩ := by
  cases hy : tval (some y) <;> cases hd : tval (some d) <;>
    simp [PubdateParser.run, hy, hd, h1, h2, h]

/-- Two truthy month texts resolving to the same month give the
Year+Month recognizer identical results in any year context. -/
theorem run_ym_month_eq (y m1 m2 : String)
    (h1 : tval (some m1) = some m1) (h2 : tval (some m2) = some m2)
    (h : monthOf m1 = monthOf m2) :
    PubdateParser.run .yearMonth ⟨some y, some m1, none, none, none⟩
      = PubdateParser.run .yearMonth ⟨some y, some m2, none, none, none⟩ := by
  cases hy : tval (some y) <;>
    simp [PubdateParser.run, hy, h1, h2, h]

/-- All eight letter casings of the abbreviation "Jun". -/
def junCasings : List String :=
  ["jun", "juN", "jUn", "jUN", "Jun", "JuN", "JUn", "JUN"]

/-- C8: in the structured date recognizers the month field accepts either a
numeric string or a case-insensitive 3-4 letter English month abbreviation
(via `MONTHS` and `capitalize`, with `Sept` also mapping to 9); for any
year/day context, month inputs "6" and "Jun" in any letter casing yield the
same result, with month = 6. -/
theorem c8_month_numeric_or_abbreviation :
    (∀ y d m : String, m ∈ junCasings →
      PubdateParser.run .yearMonthDay ⟨some y, some m, some d, none, none⟩
        = PubdateParser.run .yearMonthDay ⟨some y, some "6", some d, none, none⟩)
  ∧ (∀ y m : String, m ∈ junCasings →
      PubdateParser.run .yearMonth ⟨some y, some m, none, none, none⟩
        = PubdateParser.run .yearMonth ⟨some y, some "6", none, none, none⟩)
  ∧ MONTHS "Sept" = some 9
  ∧ PubdateParser.run .yearMonthDay ⟨some "2014", some "jUN", some "15", none, none⟩
      = .ok (some ⟨2014, 6, 15⟩)
  ∧ PubdateParser.run .yearMonthDay ⟨some "2014", some "6", some "15", none, none⟩
      = .ok (some ⟨2014, 6, 15⟩) := by
  refine ⟨?_, ?_, rfl, by decide, by decide⟩
  · intro y d m hm
    fin_cases hm <;>
      exact run_ymd_month_eq y d _ "6" (by decide) (by decide) (by decide)
  · intro y m hm
    fin_cases hm <;>
      exact run_ym_month_eq y _ "6" (by decide) (by decide) (by decide)

/-- C8 witness: a concrete year/day context in which the lowercased
abbreviation and the numeric form coincide. -/
theorem c8_month_numeric_or_abbreviation_witness :
    PubdateParser.run .yearMonthDay ⟨some "1999", some "jun", some "28", none, none⟩
      = PubdateParser.run .yearMonthDay ⟨some "1999", some "6", some "28", none, none⟩ :=
  c8_month_numeric_or_abbreviation.1 "1999" "28" "jun" (by decide)

/-- C9: the season tables map Spring→4, Summer→7, Fall→10, Autumn→10,
Winter→1, and the structured input `{Year:2014, Season:"Autumn"}` resolves
through the cascade to 2014-10-01. -/
theorem c9_season_mapping :
    SEASONS "Spring" = some 4
  ∧ SEASONS "Summer" = some 7
  ∧ SEASONS "Fall" = some 10
  ∧ SEASONS "Autumn" = some 10
  ∧ SEASONS "Winter" = some 1
  ∧ parse_pubdate ⟨some "2014", none, none, some "Autumn", none⟩ = .ok ⟨2014, 10, 1⟩ := by
  refine ⟨rfl, rfl, rfl, rfl, rfl, by decide⟩

/-- C10 (implicit): the structured Year+Season recognizer looks the season
text up in `SEASONS` without normalization, so a validly named but
differently cased season raises an uncaught `KeyError` (which escapes the
cascade) instead of declining, while the Medline year-range-with-season
recognizer capitalizes before lookup and accepts "autumn". -/
theorem c10_year_season_case_sensitive :
    PubdateParser.run .yearSeason ⟨some "2014", none, none, some "autumn", none⟩
      = .error (.keyError "autumn")
  ∧ PubdateParser.run .yearSeason ⟨some "2014", none, none, some "WINTER", none⟩
      = .error (.keyError "WINTER")
  ∧ parse_pubdate ⟨some "2014", none, none, some "autumn", none⟩
      = .error (.keyError "autumn")
  ∧ PubdateParser.run .yearSeason ⟨some "2014", none, none, some "Autumn", none⟩
      = .ok (some ⟨2014, 10, 1⟩)
  ∧ PubdateParser.run .medlineDateYearRangeWithSeason
        ⟨none, none, none, none, some "1975-1976 autumn"⟩
      = .ok (some ⟨1975, 10, 1⟩) := by
  refine ⟨by decide, by decide, by decide, by decide, by decide⟩
